import Mathlib

/-!
Shallow embedding of the EduRTOS core (task model, scheduler, kernel façade)
from src/src/kernel/task.cpp, src/src/kernel/scheduler.cpp and
src/src/kernel/kernel.cpp, together with theorems settling the specification
claims about them.

Modelling conventions:
* machine integers (std::uint8_t, std::size_t, chrono durations) are Nat;
  the uint8_t priority argument is taken as its value in 0..255;
* time points (steady_clock::now()) are Nat milliseconds, supplied as
  explicit parameters where the code reads the clock;
* the task handler is an opaque callable whose only observable effect in
  execute() is whether it throws, so execute takes that outcome as a Bool;
* shared_ptr aliasing is modelled by a task store TaskId -> Task, with the
  scheduler's vectors and queues holding TaskIds;
* the dispatcher loop body and the deadline-monitor tick are modelled as
  single sequential steps (the C++ mutex serializes them), parameterized by
  an oracle providing the clock readings and handler outcome of that step.
-/

namespace EduRTOS

/-- Task states, task.hpp lines 12-19. -/
inductive TaskState
  | READY
  | RUNNING
  | BLOCKED
  | SUSPENDED
  | TERMINATED
deriving DecidableEq, Repr

/-- Scheduling policies, task.hpp lines 21-25. -/
inductive SchedulePolicy
  | PREEMPTIVE
  | COOPERATIVE
deriving DecidableEq, Repr

/-- Preemption modes, scheduler.hpp lines 26-32. -/
inductive PreemptionMode
  | NONE
  | TIME_SLICE
  | PRIORITY
  | HYBRID
deriving DecidableEq, Repr

/-- TaskStatistics, task.hpp lines 27-35.  Durations in the units the code
uses: total and average execution time in microseconds, deadline counter in
milliseconds; last_execution is a steady-clock time point (0 = never ran,
matching the default-constructed time_point the code tests against). -/
structure TaskStatistics where
  execution_count : Nat := 0
  deadline_misses : Nat := 0
  last_execution : Nat := 0
  total_execution_time : Nat := 0
  average_execution_time : Nat := 0
  deadline_counter : Nat := 0
deriving DecidableEq, Repr

/-- TaskBase<void>, task.hpp lines 42-95 (data members). -/
structure Task where
  name : String
  policy : SchedulePolicy
  base_priority : Nat
  dynamic_priority : Nat
  period : Nat
  deadline : Nat
  stack_size : Nat
  recoverable : Bool
  state : TaskState := .READY
  statistics : TaskStatistics := {}
deriving DecidableEq, Repr

/-- TaskBase constructor, task.cpp lines 5-24: the priority is clamped from
above to 99 (min with 99, nothing clamps the lower end); the stored deadline
is the argument when positive, otherwise the period. -/
def mkTask (name : String) (priority : Nat) (policy : SchedulePolicy)
    (period : Nat) (deadline : Nat) (stack_size : Nat) (recoverable : Bool) :
    Task :=
  { name := name
    policy := policy
    base_priority := min priority 99
    dynamic_priority := min priority 99
    period := period
    deadline := if deadline > 0 then deadline else period
    stack_size := stack_size
    recoverable := recoverable }

/-- setState, task.hpp line 93. -/
def Task.setState (t : Task) (s : TaskState) : Task :=
  { t with state := s }

/-- The pre-handler part of execute(), task.cpp lines 29-33: state becomes
RUNNING, last_execution is set to now, execution_count is incremented and
the deadline counter is reset to 0, all before the handler is invoked. -/
def Task.executeBegin (t : Task) (now : Nat) : Task :=
  { t with
      state := .RUNNING
      statistics := { t.statistics with
        last_execution := now
        execution_count := t.statistics.execution_count + 1
        deadline_counter := 0 } }

/-- execute(), task.cpp lines 26-54.  handlerThrows is the outcome of
invoking the opaque handler (true when it raises). -/
def Task.execute (t : Task) (now : Nat) (handlerThrows : Bool) : Task :=
  let t1 := t.executeBegin now
  if handlerThrows then
    if t.recoverable then t1.setState .READY else t1.setState .TERMINATED
  else
    t1.setState .READY

/-- suspend(), task.cpp lines 56-63. -/
def Task.suspend (t : Task) : Task :=
  if t.state = .TERMINATED then t else t.setState .SUSPENDED

/-- resume(), task.cpp lines 65-72. -/
def Task.resume (t : Task) : Task :=
  if t.state = .SUSPENDED then t.setState .READY else t

/-- terminate(), task.cpp lines 74-78. -/
def Task.terminate (t : Task) : Task :=
  t.setState .TERMINATED

/-- updatePriority(), task.cpp lines 87-102.  The C++ computes the boost as
base_priority * 0.05f * deadline_misses in single precision and truncates
base_priority + boost to int, capped by min with 99.  For the clamped base
(at most 99) this equals exact arithmetic with floor(base * misses / 20):
the exact fractional part of base * misses / 20 is a multiple of 1/20, and
the accumulated relative rounding error of the three float operations
(0.05f exceeds 1/20 by about 1.5e-7 relatively, strictly more than the
rounding slack of each product) can neither push the value below the exact
value nor across the next integer, so the truncation agrees with the exact
floor.  The embedding therefore uses exact Nat arithmetic. -/
def Task.updatePriority (t : Task) : Task :=
  if t.statistics.deadline_misses > 0 then
    { t with dynamic_priority := min 99 (t.base_priority + t.base_priority * t.statistics.deadline_misses / 20) }
  else
    { t with dynamic_priority := t.base_priority }

/-- recordDeadlineMiss(), task.cpp lines 80-85. -/
def Task.recordDeadlineMiss (t : Task) : Task :=
  Task.updatePriority
    { t with statistics :=
        { t.statistics with deadline_misses := t.statistics.deadline_misses + 1 } }

/-- updateStatistics(), task.cpp lines 104-113. -/
def Task.updateStatistics (t : Task) (execution_time : Nat) : Task :=
  let total := t.statistics.total_execution_time + execution_time
  if t.statistics.execution_count > 0 then
    { t with statistics := { t.statistics with
        total_execution_time := total
        average_execution_time := total / t.statistics.execution_count } }
  else
    { t with statistics := { t.statistics with total_execution_time := total } }

/-- updateDeadlineCounter(), task.cpp lines 115-130: only acts when the
stored deadline is positive; adds the elapsed time to the counter, and on
overrun records a miss and resets the counter to 0. -/
def Task.updateDeadlineCounter (t : Task) (elapsed : Nat) : Task :=
  if t.deadline > 0 then
    let t1 := { t with statistics :=
      { t.statistics with deadline_counter := t.statistics.deadline_counter + elapsed } }
    if t1.statistics.deadline_counter > t1.deadline then
      let t2 := t1.recordDeadlineMiss
      { t2 with statistics := { t2.statistics with deadline_counter := 0 } }
    else
      t1
  else
    t

/-- isDeadlineApproaching(), task.cpp lines 132-140 (chrono integer
arithmetic: deadline * 4 / 5). -/
def Task.isDeadlineApproaching (t : Task) : Bool :=
  if t.deadline = 0 then false
  else decide (t.statistics.deadline_counter > t.deadline * 4 / 5)

/-- resetStatistics(), task.cpp lines 142-151 (last_execution is not
reset). -/
def Task.resetStatistics (t : Task) : Task :=
  { t with
      statistics := { t.statistics with
        execution_count := 0
        deadline_misses := 0
        total_execution_time := 0
        average_execution_time := 0
        deadline_counter := 0 }
      dynamic_priority := t.base_priority }

/-- Task ids stand for the shared_ptr identities of tasks; the scheduler
state carries a store resolving ids to task values. -/
abbrev TaskId := Nat

/-- Scheduler state, scheduler.hpp lines 34-57.  The ready queue is the
multiset of entries of the std::priority_queue, as a list; selection takes
an element of maximal current dynamic_priority (the comparator reads live
priorities).  Visualization-only members (task_symbols_, cpu_utilization_,
idle bookkeeping) and the thread/mutex/condvar plumbing are not modelled;
force_reschedule_, recovery_attempts_ and total_run_time_ are. -/
structure SchedState where
  store : TaskId → Task
  all_tasks : List TaskId
  ready_queue : List TaskId
  current_task : Option TaskId := none
  force_reschedule : Bool := false
  preemption_mode : PreemptionMode := .HYBRID
  time_slice : Nat := 50
  recovery_attempts : Nat := 0
  total_run_time : Nat := 0

/-- The element the std::priority_queue comparator (scheduler.hpp lines
18-24: compare by getDynamicPriority) puts on top: an entry of maximal
current dynamic_priority (ties resolved to the earliest entry; the C++ tie
order is implementation-defined). -/
def queueMax (store : TaskId → Task) : List TaskId → Option TaskId
  | [] => none
  | x :: xs =>
    match queueMax store xs with
    | none => some x
    | some y =>
      if (store x).dynamic_priority < (store y).dynamic_priority then some y else some x

/-- The pop-and-retry recursion of selectNextTask(), scheduler.cpp lines
327-337: pop the top entry; if its state is no longer READY, drop it and
retry on the rest.  Structural recursion on a fuel argument; fuel equal to
the queue length is always sufficient because each retry erases one member
(selectDrainAux_fuel_irrelevant below makes the sufficiency precise). -/
def selectDrainAux (store : TaskId → Task) : Nat → List TaskId → Option TaskId × List TaskId
  | 0, q => (none, q)
  | n + 1, q =>
    match queueMax store q with
    | none => (none, q)
    | some top =>
      if (store top).state = .READY then (some top, q.erase top)
      else selectDrainAux store n (q.erase top)

def selectDrain (store : TaskId → Task) (q : List TaskId) : Option TaskId × List TaskId :=
  selectDrainAux store q.length q

/-- selectNextTask(), scheduler.cpp lines 307-338.  Each recursive call of
the C++ refills the queue from all_tasks_ when it finds it empty.  In this
sequential model the store is fixed during the call, so a refill inserts
only READY tasks and the very next pop succeeds, hence at most one refill
ever happens; the code's unbounded recursion unrolls to: drain the current
queue, and if that exhausts it without a READY entry, refill once from
all_tasks_ and drain the refill. -/
def SchedState.selectNextTask (s : SchedState) : Option TaskId × SchedState :=
  match selectDrain s.store
      (if s.ready_queue.isEmpty then
        s.all_tasks.filter (fun id => (s.store id).state = .READY)
      else s.ready_queue) with
  | (some top, q1) => (some top, { s with ready_queue := q1 })
  | (none, _) =>
    if s.ready_queue.isEmpty then (none, { s with ready_queue := [] })
    else
      match selectDrain s.store (s.all_tasks.filter (fun id => (s.store id).state = .READY)) with
      | (some top, q1) => (some top, { s with ready_queue := q1 })
      | (none, _) => (none, { s with ready_queue := [] })

/-- addTask(), scheduler.cpp lines 19-39 (symbol assignment is
visualization-only and not modelled). -/
def SchedState.addTask (s : SchedState) (id : TaskId) (t : Task) : SchedState :=
  { s with
      store := Function.update s.store id t
      all_tasks := s.all_tasks ++ [id]
      ready_queue := if t.state = .READY then s.ready_queue ++ [id] else s.ready_queue }

/-- The per-task body of checkDeadlines(), scheduler.cpp lines 344-359:
a miss is recorded only when deadline > 0, period > 0, the task has run at
least once, and now - last_execution exceeds period + deadline. -/
def checkDeadlinesTask (now : Nat) (t : Task) : Task :=
  if t.deadline > 0 then
    if t.period > 0 then
      if t.statistics.last_execution > 0 then
        if now - t.statistics.last_execution > t.period + t.deadline then
          t.recordDeadlineMiss
        else t
      else t
    else t
  else t

/-- checkDeadlines(), scheduler.cpp lines 340-361: apply the per-task check
to every task in all_tasks_. -/
def SchedState.checkDeadlines (s : SchedState) (now : Nat) : SchedState :=
  { s with store :=
      s.all_tasks.foldl (fun st id => Function.update st id (checkDeadlinesTask now (st id))) s.store }

/-- attemptTaskRecovery(), scheduler.cpp lines 395-416 with
MAX_RECOVERY_ATTEMPTS = 3 (scheduler.hpp line 57): fails without any state
change when the task is not recoverable or the scheduler-global counter has
reached 3; otherwise increments the counter, sets the task READY, enqueues
it and reports success. -/
def SchedState.attemptTaskRecovery (s : SchedState) (id : TaskId) : Bool × SchedState :=
  if !(s.store id).recoverable then (false, s)
  else if 3 ≤ s.recovery_attempts then (false, s)
  else
    (true,
      { s with
          recovery_attempts := s.recovery_attempts + 1
          store := Function.update s.store id ((s.store id).setState .READY)
          ready_queue := s.ready_queue ++ [id] })

/-- adjustPriorities(), scheduler.cpp lines 125-149: updatePriority on all
tasks, then rebuild the ready queue keeping only entries still READY. -/
def SchedState.adjustPriorities (s : SchedState) : SchedState :=
  let store := s.all_tasks.foldl (fun st id => Function.update st id ((st id).updatePriority)) s.store
  { s with
      store := store
      ready_queue := s.ready_queue.filter (fun id => (store id).state = .READY) }

/-- The per-iteration inputs the dispatcher loop reads from the environment:
the clock value, whether the dispatched handler throws, the measured
execution time, whether the time-slice comparison at scheduler.cpp line 239
comes out expired, and whether the one-second priority-adjustment check at
line 258 fires. -/
structure LoopOracle where
  now : Nat
  handlerThrows : Bool
  execTime : Nat
  timeSliceExpired : Bool
  adjustDue : Bool
deriving DecidableEq, Repr

/-- The dispatch part of one schedulerLoop() iteration with a selected task,
scheduler.cpp lines 183-217: set RUNNING, execute, update statistics and
total run time, attempt recovery when the task ended TERMINATED and is
recoverable, clear the reschedule flag. -/
def SchedState.runCurrent (s : SchedState) (id : TaskId) (o : LoopOracle) : SchedState :=
  let t1 := ((s.store id).setState .RUNNING).execute o.now o.handlerThrows
  let t2 := t1.updateStatistics o.execTime
  let s1 := { s with
      store := Function.update s.store id t2
      total_run_time := s.total_run_time + o.execTime }
  let s2 := if t2.state = .TERMINATED && t2.recoverable then (s1.attemptTaskRecovery id).2 else s1
  { s2 with force_reschedule := false }

/-- The tail of one schedulerLoop() iteration, scheduler.cpp lines 231-262:
compute time-slice expiry (only for a PREEMPTIVE current task under
TIME_SLICE or HYBRID), and on expiry or a pending reschedule hint requeue
the current task when it is READY and clear it; finally run the periodic
priority adjustment when due. -/
def SchedState.afterRun (s : SchedState) (o : LoopOracle) : SchedState :=
  let expired :=
    match s.current_task with
    | some id =>
      (s.store id).policy = .PREEMPTIVE &&
        (s.preemption_mode = .TIME_SLICE || s.preemption_mode = .HYBRID) &&
        o.timeSliceExpired
    | none => false
  let s1 :=
    if expired || s.force_reschedule then
      let s' : SchedState :=
        match s.current_task with
        | some id =>
          if (s.store id).state = .READY then { s with ready_queue := s.ready_queue ++ [id] }
          else s
        | none => s
      { s' with current_task := none, force_reschedule := false }
    else s
  if o.adjustDue then s1.adjustPriorities else s1

/-- One full iteration of schedulerLoop(), scheduler.cpp lines 166-263:
check deadlines, select the next task, dispatch it when one was found (the
idle branch only waits and does idle-time accounting, which is not
modelled), then the preemption/requeue tail. -/
def schedulerStep (s : SchedState) (o : LoopOracle) : SchedState :=
  let s1 := s.checkDeadlines o.now
  let sel := s1.selectNextTask.1
  let s3 := { s1.selectNextTask.2 with current_task := sel }
  let s4 :=
    match sel with
    | some id => s3.runCurrent id o
    | none => s3
  s4.afterRun o

/-- The per-task body of one deadlineMonitorLoop() tick, scheduler.cpp
lines 283-302: advance the deadline counter of every task that is not the
currently running one (the condition task != current || state != RUNNING),
then raise the reschedule hint when this task's deadline is approaching,
it is READY, there is a current task of strictly lower dynamic priority,
and the mode is PRIORITY or HYBRID.  The accumulator carries the evolving
store and the force_reschedule flag. -/
def monitorBody (cur : Option TaskId) (mode : PreemptionMode) (elapsed : Nat)
    (acc : (TaskId → Task) × Bool) (id : TaskId) : (TaskId → Task) × Bool :=
  let st := acc.1
  let st1 :=
    if cur ≠ some id || (st id).state ≠ .RUNNING then
      Function.update st id ((st id).updateDeadlineCounter elapsed)
    else st
  let hint :=
    (st1 id).isDeadlineApproaching &&
      (st1 id).state = .READY &&
      (match cur with
       | some c => decide ((st1 c).dynamic_priority < (st1 id).dynamic_priority)
       | none => false) &&
      (mode = .PRIORITY || mode = .HYBRID)
  (st1, acc.2 || hint)

/-- One tick of deadlineMonitorLoop(), scheduler.cpp lines 266-305, with
elapsed the wall-clock milliseconds since the previous tick. -/
def SchedState.monitorTick (s : SchedState) (elapsed : Nat) : SchedState :=
  let r := s.all_tasks.foldl (monitorBody s.current_task s.preemption_mode elapsed)
    (s.store, s.force_reschedule)
  { s with store := r.1, force_reschedule := r.2 }

/-- A freshly constructed Scheduler, scheduler.cpp lines 8-12 and the
member initializers of scheduler.hpp: no tasks, HYBRID mode, empty queue,
zero recovery attempts. -/
def initSched (time_slice : Nat) : SchedState :=
  { store := fun _ => mkTask "" 0 .PREEMPTIVE 0 0 4096 false
    all_tasks := []
    ready_queue := []
    time_slice := time_slice }

/-- Kernel state, kernel.hpp: the name-keyed registry (std::map, modelled
as the list of its entries — keys are unique because insertion happens only
after the duplicate check) and the single Scheduler instance; next_id
supplies fresh identities for make_shared. -/
structure KernelState where
  tasks : List (String × TaskId)
  sched : SchedState
  next_id : TaskId

/-- The duplicate check of createTask(), kernel.cpp line 66
(tasks_.find(name) != tasks_.end()). -/
def KernelState.hasTask (k : KernelState) (name : String) : Bool :=
  (k.tasks.find? (fun p => p.1 == name)).isSome

/-- createTask(), kernel.cpp lines 56-80: null handle and no change when
the name is registered already; otherwise construct the task (stack size
4096), insert it into the registry and hand it to the scheduler. -/
def KernelState.createTask (k : KernelState) (name : String) (priority : Nat)
    (policy : SchedulePolicy) (period : Nat) (deadline : Nat) (recoverable : Bool) :
    Option TaskId × KernelState :=
  if k.hasTask name then (none, k)
  else
    let id := k.next_id
    let t := mkTask name priority policy period deadline 4096 recoverable
    (some id,
      { k with
          tasks := k.tasks ++ [(name, id)]
          sched := k.sched.addTask id t
          next_id := id + 1 })

/-- Number of registry entries carrying a given name. -/
def countName (l : List (String × TaskId)) (name : String) : Nat :=
  (l.filter (fun p => p.1 == name)).length

/-- A fresh Kernel, kernel.cpp lines 10-13: empty registry, one Scheduler
constructed with the default 50 ms time slice. -/
def initKernel : KernelState :=
  { tasks := [], sched := initSched 50, next_id := 0 }

/-- The public task operations of task.hpp lines 69-90 other than
resetStatistics, with the environment inputs each one reads. -/
inductive TaskOp
  | execute (now : Nat) (handlerThrows : Bool)
  | suspend
  | resume
  | terminate
  | recordDeadlineMiss
  | updatePriority
  | updateStatistics (execution_time : Nat)
  | updateDeadlineCounter (elapsed : Nat)
deriving DecidableEq, Repr

def Task.applyOp (t : Task) : TaskOp → Task
  | .execute now thr => t.execute now thr
  | .suspend => t.suspend
  | .resume => t.resume
  | .terminate => t.terminate
  | .recordDeadlineMiss => t.recordDeadlineMiss
  | .updatePriority => t.updatePriority
  | .updateStatistics e => t.updateStatistics e
  | .updateDeadlineCounter e => t.updateDeadlineCounter e

def Task.applyOps (t : Task) (ops : List TaskOp) : Task :=
  ops.foldl Task.applyOp t

/-- Whether a task operation is an execute() dispatch (the one public
operation that advances execution_count, and the one the scheduler only
ever applies to tasks selected READY). -/
def TaskOp.isExecute : TaskOp → Bool
  | .execute _ _ => true
  | _ => false

/-- Two PREEMPTIVE aperiodic tasks used in the concrete dispatcher run:
priorities 80 and 30. -/
def demoHigh : Task := mkTask "T1" 80 .PREEMPTIVE 0 0 4096 false

def demoLow : Task := mkTask "T2" 30 .PREEMPTIVE 0 0 4096 false

/-- A fresh scheduler (default HYBRID mode) holding demoHigh as task 0 and
demoLow as task 1, both READY. -/
def demoSched : SchedState := ((initSched 50).addTask 0 demoHigh).addTask 1 demoLow

/-- One dispatcher iteration in which the handler returns normally, the
time slice has not expired and no priority adjustment is due. -/
def demoOracle : LoopOracle :=
  { now := 0, handlerThrows := false, execTime := 1, timeSliceExpired := false, adjustDue := false }

def demoSched1 : SchedState := schedulerStep demoSched demoOracle

/-- A recoverable task that has just ended TERMINATED, and a scheduler
holding it, for exercising attemptTaskRecovery. -/
def recovTask : Task := (mkTask "F" 50 .PREEMPTIVE 0 0 4096 true).setState .TERMINATED

def recovSched : SchedState := (initSched 50).addTask 0 recovTask

/-- An aperiodic task (period 0, deadline argument 0, so the stored
deadline is 0). -/
def aperiodicTask : Task := mkTask "A" 10 .PREEMPTIVE 0 0 4096 false

def aperiodicSched : SchedState := (initSched 50).addTask 0 aperiodicTask

/-- A non-recoverable task that has ended TERMINATED, inside a scheduler
that also holds a READY task, for the execution-count stability runs. -/
def deadTask : Task := (mkTask "D" 20 .PREEMPTIVE 0 0 4096 false).setState .TERMINATED

def deadSched : SchedState := ((initSched 50).addTask 0 deadTask).addTask 1 demoLow

/-- A task with a given base priority and a given number of recorded
deadline misses, for exercising the adaptive priority formula. -/
def boostedTask (base misses : Nat) : Task :=
  let t := mkTask "E" base .PREEMPTIVE 0 0 4096 false
  { t with statistics := { t.statistics with deadline_misses := misses } }

/-- The execution-count and failure-relevant observables of a task:
execution_count, state and the recoverable flag.  Deadline bookkeeping
(misses, counters, priorities) never changes these. -/
def taskCore (t : Task) : Nat × TaskState × Bool :=
  (t.statistics.execution_count, t.state, t.recoverable)

/-- The adaptive boost in exact rational arithmetic: the floor of
5/100 * base * misses is base * misses / 20 in Nat division. -/
theorem nat_floor_five_pct (b n : Nat) : ⌊(5 : ℚ) / 100 * b * n⌋₊ = b * n / 20 := by
  have h : (5 : ℚ) / 100 * b * n = ((b * n : ℕ) : ℚ) / ((20 : ℕ) : ℚ) := by
    push_cast
    ring
  rw [h, Nat.floor_div_nat, Nat.floor_natCast]

/-- C1: for every task, execute() sets the state to RUNNING, stamps
last_execution, increments execution_count by exactly one and resets the
deadline counter to 0 before invoking the handler; on normal return the
final state is READY, and on a throw it is READY when the task is
recoverable and TERMINATED when it is not. -/
theorem execute_spec (t : Task) (now : Nat) (throws : Bool) :
    (t.executeBegin now).state = .RUNNING ∧
    (t.execute now throws).statistics.last_execution = now ∧
    (t.execute now throws).statistics.execution_count = t.statistics.execution_count + 1 ∧
    (t.execute now throws).statistics.deadline_counter = 0 ∧
    (t.execute now throws).state =
      (if throws then (if t.recoverable then TaskState.READY else TaskState.TERMINATED)
       else TaskState.READY) := by
  cases throws <;> cases hr : t.recoverable <;>
    simp [Task.execute, Task.executeBegin, Task.setState, hr]

/-- C2 (code bug evidence): the constructor clamps the priority argument
only from above, so the argument 0 yields base_priority and
dynamic_priority 0, outside the specified range [1, 99] and contrary to
the constructor's own comment; for every argument p the stored base
priority is min p 99, never raised to 1. -/
theorem constructor_priority_zero :
    (mkTask "t" 0 .PREEMPTIVE 0 0 4096 false).base_priority = 0 ∧
    (mkTask "t" 0 .PREEMPTIVE 0 0 4096 false).dynamic_priority = 0 ∧
    ∀ p : Nat, (mkTask "t" p .PREEMPTIVE 0 0 4096 false).base_priority = min p 99 := by
  refine ⟨rfl, rfl, fun p => rfl⟩

/-- C3: update_priority() sets dynamic_priority to
min(99, base + floor(0.05 * base * misses)) when there are misses and to
the base priority otherwise; at base 50 the results after 2 and 20 misses
are 55 and 99. -/
theorem updatePriority_formula (t : Task) :
    (t.updatePriority.dynamic_priority =
      if t.statistics.deadline_misses > 0 then
        min 99 (t.base_priority + ⌊(5 : ℚ) / 100 * t.base_priority * t.statistics.deadline_misses⌋₊)
      else t.base_priority) ∧
    (boostedTask 50 2).updatePriority.dynamic_priority = 55 ∧
    (boostedTask 50 20).updatePriority.dynamic_priority = 99 := by
  refine ⟨?_, by decide, by decide⟩
  rw [nat_floor_five_pct]
  unfold Task.updatePriority
  split <;> rfl

/-- C8: suspend() immediately followed by resume() leaves a task READY
exactly when it was not TERMINATED before the pair, and leaves a
TERMINATED task entirely unchanged; suspend moves every non-TERMINATED
state to SUSPENDED, and resume moves only SUSPENDED to READY. -/
theorem suspend_resume_spec (t : Task) :
    ((t.suspend.resume).state = .READY ↔ t.state ≠ .TERMINATED) ∧
    (t.suspend.resume = if t.state = .TERMINATED then t else t.setState .READY) ∧
    (t.suspend = if t.state = .TERMINATED then t else t.setState .SUSPENDED) ∧
    (t.resume = if t.state = .SUSPENDED then t.setState .READY else t) := by
  obtain ⟨nm, pol, bp, dp, per, dl, ss, rec, st, stats⟩ := t
  cases st <;> simp [Task.suspend, Task.resume, Task.setState]

/-- C10: for a task whose stored deadline is 0 (as produced by
construction with deadline argument 0 and period 0),
updateDeadlineCounter is a complete no-op: the returned task is the input
task, every field included. -/
theorem deadline_zero_counter_noop (t : Task) (h : t.deadline = 0) (elapsed : Nat)
    (nm : String) (pr : Nat) (pol : SchedulePolicy) (ss : Nat) (rec : Bool) :
    t.updateDeadlineCounter elapsed = t ∧ (mkTask nm pr pol 0 0 ss rec).deadline = 0 := by
  constructor
  · simp [Task.updateDeadlineCounter, h]
  · simp [mkTask]

theorem deadline_zero_counter_noop_witness :
    aperiodicTask.updateDeadlineCounter 7 = aperiodicTask ∧
    (mkTask "A" 10 .PREEMPTIVE 0 0 4096 false).deadline = 0 :=
  deadline_zero_counter_noop aperiodicTask (by decide) 7 "A" 10 .PREEMPTIVE 4096 false

/-- C5: attemptTaskRecovery on a recoverable TERMINATED task fails with no
state change at all once the scheduler-global counter has reached 3, and
below 3 it increments the counter, sets the task READY, enqueues it and
reports success; the counter therefore never exceeds 3 (it starts at 0 and
each call keeps it at most 3), and the first three failures are revived
while the fourth attempt is refused. -/
theorem attemptTaskRecovery_spec (s : SchedState) (id : TaskId)
    (hrec : (s.store id).recoverable = true) (hterm : (s.store id).state = .TERMINATED) :
    (3 ≤ s.recovery_attempts →
      s.attemptTaskRecovery id = (false, s) ∧
      ((s.attemptTaskRecovery id).2.store id).state = .TERMINATED ∧
      (s.attemptTaskRecovery id).2.recovery_attempts = s.recovery_attempts) ∧
    (s.recovery_attempts < 3 →
      (s.attemptTaskRecovery id).1 = true ∧
      (s.attemptTaskRecovery id).2.recovery_attempts = s.recovery_attempts + 1 ∧
      ((s.attemptTaskRecovery id).2.store id).state = .READY ∧
      (s.attemptTaskRecovery id).2.ready_queue = s.ready_queue ++ [id]) ∧
    (s.recovery_attempts ≤ 3 → (s.attemptTaskRecovery id).2.recovery_attempts ≤ 3) := by
  refine ⟨fun h3 => ?_, fun h3 => ?_, fun h3 => ?_⟩
  · simp [SchedState.attemptTaskRecovery, hrec, h3, hterm]
  · have h3' : ¬ 3 ≤ s.recovery_attempts := by omega
    simp [SchedState.attemptTaskRecovery, hrec, h3', Function.update_same, Task.setState]
  · by_cases h : 3 ≤ s.recovery_attempts
    · simpa [SchedState.attemptTaskRecovery, hrec, h] using h3
    · simp [SchedState.attemptTaskRecovery, hrec, h]
      omega

theorem attemptTaskRecovery_spec_witness :
    (recovSched.store 0).recoverable = true ∧
    (recovSched.attemptTaskRecovery 0).1 = true ∧
    (recovSched.attemptTaskRecovery 0).2.recovery_attempts = recovSched.recovery_attempts + 1 := by
  have h := (attemptTaskRecovery_spec recovSched 0 (by decide) (by decide)).2.1 (by decide)
  exact ⟨by decide, h.1, h.2.1⟩

/-- Folding per-id store updates over a list of ids leaves every entry
unchanged at which the per-task function is the identity, as long as the
identity-granting property holds at that entry (updates at other ids
cannot disturb it). -/
theorem foldl_update_fixed (g : Task → Task) (P : Task → Prop)
    (hfix : ∀ t, P t → g t = t) :
    ∀ (l : List TaskId) (st : TaskId → Task) (id : TaskId), P (st id) →
      l.foldl (fun st i => Function.update st i (g (st i))) st id = st id := by
  intro l
  induction l with
  | nil => intro st id _; rfl
  | cons a l ih =>
    intro st id h
    simp only [List.foldl_cons]
    by_cases hai : a = id
    · subst hai
      rw [hfix _ h, Function.update_eq_self]
      exact ih st _ h
    · have hupd : Function.update st a (g (st a)) id = st id :=
        Function.update_noteq (Ne.symm hai) _ _
      rw [ih _ id (by rw [hupd]; exact h), hupd]

/-- The monitor-tick fold leaves every store entry unchanged at which
updateDeadlineCounter is the identity, as long as the identity-granting
property holds at that entry. -/
theorem monitor_foldl_fixed (cur : Option TaskId) (mode : PreemptionMode) (e : Nat)
    (P : Task → Prop) (hfix : ∀ t, P t → t.updateDeadlineCounter e = t) :
    ∀ (l : List TaskId) (st : TaskId → Task) (b : Bool) (id : TaskId), P (st id) →
      (l.foldl (monitorBody cur mode e) (st, b)).1 id = st id := by
  intro l
  induction l with
  | nil => intro st b id _; rfl
  | cons a l ih =>
    intro st b id h
    rw [List.foldl_cons]
    have hfst : (monitorBody cur mode e (st, b) a).1 id = st id := by
      by_cases hai : a = id
      · subst hai
        simp only [monitorBody]
        split
        · rw [hfix _ h, Function.update_eq_self]
        · rfl
      · simp only [monitorBody]
        split
        · exact Function.update_noteq (Ne.symm hai) _ _
        · rfl
    have hP : P ((monitorBody cur mode e (st, b) a).1 id) := by rw [hfst]; exact h
    calc (l.foldl (monitorBody cur mode e) (monitorBody cur mode e (st, b) a)).1 id
        = (monitorBody cur mode e (st, b) a).1 id :=
          ih (monitorBody cur mode e (st, b) a).1 (monitorBody cur mode e (st, b) a).2 id hP
      _ = st id := hfst

/-- C6: a task whose stored deadline is 0 never has deadline_misses
incremented: updateDeadlineCounter leaves its misses unchanged, the
dispatcher's per-task deadline check leaves it unchanged, and both the
dispatcher-side checkDeadlines pass and a whole deadline-monitor tick
leave its store entry exactly as it was; composing these facts, no
sequence of scheduler activity ever touches its miss counter. -/
theorem deadline_zero_no_misses (t : Task) (h : t.deadline = 0) (elapsed now e : Nat)
    (s : SchedState) (id : TaskId) (hs : (s.store id).deadline = 0) :
    (t.updateDeadlineCounter elapsed).statistics.deadline_misses = t.statistics.deadline_misses ∧
    (checkDeadlinesTask now t).statistics.deadline_misses = t.statistics.deadline_misses ∧
    (s.checkDeadlines now).store id = s.store id ∧
    (s.monitorTick e).store id = s.store id := by
  have hupd : ∀ (t' : Task), t'.deadline = 0 → ∀ d, t'.updateDeadlineCounter d = t' := by
    intro t' h' d
    simp [Task.updateDeadlineCounter, h']
  have hchk : ∀ (t' : Task), t'.deadline = 0 → checkDeadlinesTask now t' = t' := by
    intro t' h'
    simp [checkDeadlinesTask, h']
  refine ⟨by rw [hupd t h elapsed], by rw [hchk t h], ?_, ?_⟩
  · exact foldl_update_fixed (checkDeadlinesTask now) (fun t' => t'.deadline = 0) hchk
      s.all_tasks s.store id hs
  · exact monitor_foldl_fixed s.current_task s.preemption_mode e (fun t' => t'.deadline = 0)
      (fun t' h' => hupd t' h' e) s.all_tasks s.store s.force_reschedule id hs

theorem deadline_zero_no_misses_witness :
    (aperiodicTask.updateDeadlineCounter 3).statistics.deadline_misses
      = aperiodicTask.statistics.deadline_misses ∧
    (aperiodicSched.checkDeadlines 100).store 0 = aperiodicSched.store 0 ∧
    (aperiodicSched.monitorTick 10).store 0 = aperiodicSched.store 0 := by
  have h := deadline_zero_no_misses aperiodicTask (by decide) 3 100 10 aperiodicSched 0 (by decide)
  exact ⟨h.1, h.2.2.1, h.2.2.2⟩

theorem countName_append (l : List (String × TaskId)) (name : String) (id : TaskId) :
    countName (l ++ [(name, id)]) name = countName l name + 1 := by
  simp [countName, List.filter_append]

theorem countName_zero_of_not_hasTask (k : KernelState) (name : String)
    (h : k.hasTask name = false) : countName k.tasks name = 0 := by
  unfold KernelState.hasTask at h
  have h' : ∀ x ∈ k.tasks, ¬ (x.1 == name) = true := by
    intro x hx hpx
    have hsome : (k.tasks.find? (fun p => p.1 == name)).isSome = true :=
      List.find?_isSome.mpr ⟨x, hx, hpx⟩
    rw [h] at hsome
    exact Bool.false_ne_true hsome
  unfold countName
  rw [List.filter_eq_nil_iff.mpr h']
  rfl

/-- C7: createTask returns a null handle and changes nothing when the name
is already registered; on a fresh name it returns a non-null handle and
the registry gains exactly one entry under that name; consequently two
consecutive creates with the same name leave the second call refused and
exactly one task with that name registered. -/
theorem createTask_spec (k : KernelState) (name : String) (pr : Nat) (pol : SchedulePolicy)
    (per dl : Nat) (rec : Bool) :
    (k.hasTask name = true → k.createTask name pr pol per dl rec = (none, k)) ∧
    (k.hasTask name = false →
      (k.createTask name pr pol per dl rec).1 = some k.next_id ∧
      countName k.tasks name = 0 ∧
      countName (k.createTask name pr pol per dl rec).2.tasks name = 1 ∧
      ((k.createTask name pr pol per dl rec).2.createTask name pr pol per dl rec).1 = none ∧
      countName ((k.createTask name pr pol per dl rec).2.createTask name pr pol per dl rec).2.tasks
        name = 1) := by
  constructor
  · intro h
    simp [KernelState.createTask, h]
  · intro h
    have hzero := countName_zero_of_not_hasTask k name h
    have hk' : (k.createTask name pr pol per dl rec).2.tasks = k.tasks ++ [(name, k.next_id)] := by
      simp [KernelState.createTask, h]
    have hcount : countName (k.createTask name pr pol per dl rec).2.tasks name = 1 := by
      rw [hk', countName_append, hzero]
    have hmem : (k.createTask name pr pol per dl rec).2.hasTask name = true := by
      unfold KernelState.hasTask
      rw [hk']
      exact List.find?_isSome.mpr ⟨(name, k.next_id), by simp, by simp⟩
    have hsecond : (k.createTask name pr pol per dl rec).2.createTask name pr pol per dl rec
        = (none, (k.createTask name pr pol per dl rec).2) := by
      rw [KernelState.createTask, hmem]
      simp
    refine ⟨by simp [KernelState.createTask, h], hzero, hcount, ?_, ?_⟩
    · rw [hsecond]
    · rw [hsecond]
      exact hcount

theorem createTask_spec_witness :
    initKernel.hasTask "X" = false ∧
    (initKernel.createTask "X" 10 .PREEMPTIVE 0 0 false).1 = some 0 ∧
    ((initKernel.createTask "X" 10 .PREEMPTIVE 0 0 false).2.createTask
      "X" 10 .PREEMPTIVE 0 0 false).1 = none ∧
    countName ((initKernel.createTask "X" 10 .PREEMPTIVE 0 0 false).2.createTask
      "X" 10 .PREEMPTIVE 0 0 false).2.tasks "X" = 1 := by
  have h := (createTask_spec initKernel "X" 10 .PREEMPTIVE 0 0 false).2 (by decide)
  exact ⟨by decide, h.1, h.2.2.2.1, h.2.2.2.2⟩

/-- C4 (code bug evidence): under the default HYBRID mode, start a fresh
scheduler with two READY PREEMPTIVE aperiodic tasks of priorities 80 (id
0) and 30 (id 1) and run one dispatcher iteration in which the handler of
the selected priority-80 task returns normally and the time slice has not
expired.  In the resulting reachable state the priority-80 task is READY
again but sits in neither the ready queue nor anywhere selection looks,
so the very next selection — the beginning of the next slice — returns
the priority-30 task while a strictly higher-priority READY task exists. -/
theorem dispatcher_passes_over_higher_priority :
    demoSched1 = schedulerStep demoSched demoOracle ∧
    demoSched.preemption_mode = .HYBRID ∧
    demoSched1.preemption_mode = .HYBRID ∧
    (demoSched1.store 0).state = .READY ∧
    (demoSched1.store 0).policy = .PREEMPTIVE ∧
    (demoSched1.store 0).dynamic_priority = 80 ∧
    (demoSched1.store 1).state = .READY ∧
    (demoSched1.store 1).dynamic_priority = 30 ∧
    demoSched1.selectNextTask.1 = some 1 := by
  refine ⟨rfl, rfl, ?_, ?_, ?_, ?_, ?_, ?_, ?_⟩ <;> decide

/-- C9 counterexample: the claim fails at two public task operations.
resetStatistics() sets execution_count back to 0, so after one execute
(count 1) it drops the count strictly, refuting monotonicity; and
execute() never checks the state, so invoked directly on a TERMINATED
non-recoverable task it still increments that task's execution_count,
refuting the claim that the count of such a task never changes again. -/
theorem execution_count_not_monotone :
    (((aperiodicTask.execute 5 false).resetStatistics).statistics.execution_count
      < (aperiodicTask.execute 5 false).statistics.execution_count) ∧
    deadTask.state = .TERMINATED ∧
    deadTask.recoverable = false ∧
    (deadTask.execute 6 true).statistics.execution_count
      ≠ deadTask.statistics.execution_count := by
  refine ⟨by decide, by decide, by decide, by decide⟩

theorem taskCore_updatePriority (t : Task) : taskCore t.updatePriority = taskCore t := by
  unfold Task.updatePriority taskCore
  split <;> rfl

theorem taskCore_recordDeadlineMiss (t : Task) : taskCore t.recordDeadlineMiss = taskCore t := by
  unfold Task.recordDeadlineMiss
  rw [taskCore_updatePriority]
  rfl

theorem taskCore_updateDeadlineCounter (t : Task) (e : Nat) :
    taskCore (t.updateDeadlineCounter e) = taskCore t := by
  simp only [Task.updateDeadlineCounter, Task.recordDeadlineMiss, Task.updatePriority, taskCore]
  split_ifs <;> rfl

theorem taskCore_checkDeadlinesTask (now : Nat) (t : Task) :
    taskCore (checkDeadlinesTask now t) = taskCore t := by
  unfold checkDeadlinesTask
  split_ifs <;> first
    | rfl
    | exact taskCore_recordDeadlineMiss t

theorem taskCore_updateStatistics (t : Task) (e : Nat) :
    taskCore (t.updateStatistics e) = taskCore t := by
  simp only [Task.updateStatistics, taskCore]
  split_ifs <;> rfl

theorem execute_count (t : Task) (now : Nat) (thr : Bool) :
    (t.execute now thr).statistics.execution_count = t.statistics.execution_count + 1 := by
  simp only [Task.execute, Task.executeBegin, Task.setState]
  split_ifs <;> rfl

theorem taskCore_count_eq {t t' : Task} (h : taskCore t = taskCore t') :
    t.statistics.execution_count = t'.statistics.execution_count :=
  congrArg Prod.fst h

theorem taskCore_state_eq {t t' : Task} (h : taskCore t = taskCore t') :
    t.state = t'.state :=
  congrArg (fun p => p.2.1) h

/-- Folding per-id store updates preserves any task observable that the
per-task function preserves, at every entry. -/
theorem foldl_update_congr {α : Type} (g : Task → Task) (φ : Task → α)
    (hg : ∀ t, φ (g t) = φ t) :
    ∀ (l : List TaskId) (st : TaskId → Task) (id : TaskId),
      φ (l.foldl (fun st i => Function.update st i (g (st i))) st id) = φ (st id) := by
  intro l
  induction l with
  | nil => intro st id; rfl
  | cons a l ih =>
    intro st id
    simp only [List.foldl_cons]
    rw [ih]
    by_cases hai : a = id
    · rw [hai, Function.update_same]
      exact hg _
    · rw [Function.update_noteq (Ne.symm hai)]

/-- The monitor-tick fold preserves any task observable preserved by
updateDeadlineCounter, at every entry. -/
theorem monitor_foldl_congr {α : Type} (φ : Task → α)
    (hφ : ∀ (t : Task) (d : Nat), φ (t.updateDeadlineCounter d) = φ t)
    (cur : Option TaskId) (mode : PreemptionMode) (e : Nat) :
    ∀ (l : List TaskId) (st : TaskId → Task) (b : Bool) (id : TaskId),
      φ ((l.foldl (monitorBody cur mode e) (st, b)).1 id) = φ (st id) := by
  intro l
  induction l with
  | nil => intro st b id; rfl
  | cons a l ih =>
    intro st b id
    rw [List.foldl_cons]
    have hfst : φ ((monitorBody cur mode e (st, b) a).1 id) = φ (st id) := by
      by_cases hai : a = id
      · simp only [monitorBody]
        split
        · rw [hai, Function.update_same]
          exact hφ _ _
        · rfl
      · simp only [monitorBody]
        split
        · rw [Function.update_noteq (Ne.symm hai)]
        · rfl
    calc φ ((l.foldl (monitorBody cur mode e) (monitorBody cur mode e (st, b) a)).1 id)
        = φ ((monitorBody cur mode e (st, b) a).1 id) :=
          ih (monitorBody cur mode e (st, b) a).1 (monitorBody cur mode e (st, b) a).2 id
      _ = φ (st id) := hfst

theorem selectDrainAux_nil (store : TaskId → Task) :
    ∀ m, selectDrainAux store m [] = (none, []) := by
  intro m
  cases m <;> simp [selectDrainAux, queueMax]

theorem queueMax_mem (store : TaskId → Task) : ∀ (q : List TaskId) (x : TaskId),
    queueMax store q = some x → x ∈ q := by
  intro q
  induction q with
  | nil => intro x h; exact Option.noConfusion h
  | cons a q ih =>
    intro x h
    simp only [queueMax] at h
    cases hq : queueMax store q with
    | none =>
      rw [hq] at h
      cases h
      exact List.mem_cons_self a q
    | some y =>
      rw [hq] at h
      dsimp only at h
      split at h
      · cases h
        exact List.mem_cons_of_mem a (ih _ hq)
      · cases h
        exact List.mem_cons_self a q

/-- The fuel given to selectDrainAux is irrelevant once it reaches the
queue length: each retry erases a member returned by queueMax, so the
length drops in lockstep with the fuel, and fuel equal to the initial
length can never run out.  This is the precise sense in which the
fuel-indexed model coincides with the unbounded recursion of the C++. -/
theorem selectDrainAux_fuel_irrelevant (store : TaskId → Task) :
    ∀ (n m : Nat) (q : List TaskId), q.length ≤ n → q.length ≤ m →
      selectDrainAux store n q = selectDrainAux store m q := by
  intro n
  induction n with
  | zero =>
    intro m q hn _
    have hq : q = [] := List.eq_nil_of_length_eq_zero (Nat.le_zero.mp hn)
    subst hq
    rw [selectDrainAux_nil, selectDrainAux_nil]
  | succ n ih =>
    intro m q hn hm
    cases q with
    | nil => rw [selectDrainAux_nil, selectDrainAux_nil]
    | cons a q' =>
      cases m with
      | zero => simp at hm
      | succ m =>
        simp only [selectDrainAux]
        cases hq : queueMax store (a :: q') with
        | none => rfl
        | some top =>
          dsimp only
          by_cases hr : (store top).state = .READY
          · rw [if_pos hr, if_pos hr]
          · rw [if_neg hr, if_neg hr]
            have hmem := queueMax_mem store _ _ hq
            have hlen : ((a :: q').erase top).length = (a :: q').length - 1 :=
              List.length_erase_of_mem hmem
            have hq'1 : (a :: q').length = q'.length + 1 := List.length_cons a q'
            apply ih
            · omega
            · omega

/-- Any id the pop-and-retry selection returns holds a READY task. -/
theorem selectDrainAux_ready (store : TaskId → Task) :
    ∀ (n : Nat) (q : List TaskId) (top : TaskId) (q' : List TaskId),
      selectDrainAux store n q = (some top, q') → (store top).state = .READY := by
  intro n
  induction n with
  | zero =>
    intro q top q' h
    simp only [selectDrainAux] at h
    exact absurd (congrArg Prod.fst h) (by simp)
  | succ n ih =>
    intro q top q' h
    simp only [selectDrainAux] at h
    cases hq : queueMax store q with
    | none =>
      rw [hq] at h
      exact absurd (congrArg Prod.fst h) (by simp)
    | some t =>
      rw [hq] at h
      dsimp only at h
      by_cases hr : (store t).state = .READY
      · rw [if_pos hr] at h
        have h1 : some t = some top := congrArg Prod.fst h
        cases h1
        exact hr
      · rw [if_neg hr] at h
        exact ih _ _ _ h

/-- selectNextTask never modifies the task store. -/
theorem selectNextTask_store (s : SchedState) : s.selectNextTask.2.store = s.store := by
  unfold SchedState.selectNextTask
  split
  · rfl
  · split
    · rfl
    · split
      · rfl
      · rfl

/-- Any task selectNextTask returns is READY in the (unchanged) store. -/
theorem selectNextTask_ready (s : SchedState) (top : TaskId)
    (h : s.selectNextTask.1 = some top) : (s.store top).state = .READY := by
  by_cases he : s.ready_queue.isEmpty
  · rcases hd : selectDrain s.store
        (s.all_tasks.filter (fun id => (s.store id).state = .READY)) with ⟨fst, snd⟩
    cases fst with
    | some t =>
      simp [SchedState.selectNextTask, he, hd] at h
      rcases h with rfl
      exact selectDrainAux_ready s.store _ _ _ _ hd
    | none =>
      simp [SchedState.selectNextTask, he, hd] at h
  · rcases hd : selectDrain s.store s.ready_queue with ⟨fst, snd⟩
    cases fst with
    | some t =>
      simp [SchedState.selectNextTask, he, hd] at h
      rcases h with rfl
      exact selectDrainAux_ready s.store _ _ _ _ hd
    | none =>
      rcases hd2 : selectDrain s.store
          (s.all_tasks.filter (fun id => (s.store id).state = .READY)) with ⟨fst2, snd2⟩
      cases fst2 with
      | some t =>
        simp [SchedState.selectNextTask, he, hd, hd2] at h
        rcases h with rfl
        exact selectDrainAux_ready s.store _ _ _ _ hd2
      | none =>
        simp [SchedState.selectNextTask, he, hd, hd2] at h

/-- Dispatching one task leaves every other store entry untouched. -/
theorem runCurrent_store_other (s : SchedState) (selId id : TaskId) (o : LoopOracle)
    (h : id ≠ selId) : (s.runCurrent selId o).store id = s.store id := by
  simp only [SchedState.runCurrent, SchedState.attemptTaskRecovery]
  split_ifs <;> simp [Function.update_noteq h]

theorem setState_statistics (t : Task) (st : TaskState) :
    (t.setState st).statistics = t.statistics := rfl

/-- Dispatching a task increments its execution count by exactly one. -/
theorem runCurrent_count_self (s : SchedState) (selId : TaskId) (o : LoopOracle) :
    ((s.runCurrent selId o).store selId).statistics.execution_count
      = (s.store selId).statistics.execution_count + 1 := by
  have hexec := execute_count ((s.store selId).setState .RUNNING) o.now o.handlerThrows
  rw [setState_statistics] at hexec
  have hstat := taskCore_count_eq (taskCore_updateStatistics
    (((s.store selId).setState .RUNNING).execute o.now o.handlerThrows) o.execTime)
  simp only [SchedState.runCurrent, SchedState.attemptTaskRecovery]
  split_ifs <;>
    simp only [Function.update_same, setState_statistics, hstat, hexec]

/-- checkDeadlines preserves execution count, state and recoverability of
every task. -/
theorem checkDeadlines_core (s : SchedState) (now : Nat) (id : TaskId) :
    taskCore ((s.checkDeadlines now).store id) = taskCore (s.store id) :=
  foldl_update_congr (checkDeadlinesTask now) taskCore (taskCore_checkDeadlinesTask now)
    s.all_tasks s.store id

/-- The tail of the dispatcher iteration preserves execution count, state
and recoverability of every task (it only requeues and, when due, runs the
priority adjustment, which touches only dynamic priorities). -/
theorem afterRun_core (s : SchedState) (o : LoopOracle) (id : TaskId) :
    taskCore ((s.afterRun o).store id) = taskCore (s.store id) := by
  have hadj : ∀ s' : SchedState, s'.store = s.store →
      taskCore (s'.adjustPriorities.store id) = taskCore (s.store id) := by
    intro s' hs'
    simp only [SchedState.adjustPriorities]
    rw [hs']
    exact foldl_update_congr Task.updatePriority taskCore taskCore_updatePriority
      s'.all_tasks s.store id
  simp only [SchedState.afterRun]
  split_ifs <;> first
    | rfl
    | (apply hadj; rfl)
    | (split <;> first
        | rfl
        | (apply hadj; rfl)
        | (split_ifs <;> first
            | rfl
            | (apply hadj; rfl)))

theorem withCurrent_store (s : SchedState) (c : Option TaskId) :
    ({ s with current_task := c } : SchedState).store = s.store := rfl

/-- One dispatcher iteration never decreases any task's execution count. -/
theorem schedulerStep_count_mono (s : SchedState) (o : LoopOracle) (id : TaskId) :
    (s.store id).statistics.execution_count
      ≤ ((schedulerStep s o).store id).statistics.execution_count := by
  have hcd := taskCore_count_eq (checkDeadlines_core s o.now id)
  simp only [schedulerStep]
  cases hsel : (s.checkDeadlines o.now).selectNextTask.1 with
  | none =>
    simp only [hsel]
    rw [taskCore_count_eq (afterRun_core _ o id), withCurrent_store, selectNextTask_store, hcd]
  | some j =>
    simp only [hsel]
    rw [taskCore_count_eq (afterRun_core _ o id)]
    by_cases hij : id = j
    · subst hij
      rw [runCurrent_count_self, withCurrent_store, selectNextTask_store, hcd]
      exact Nat.le_succ _
    · rw [runCurrent_store_other _ _ _ _ hij, withCurrent_store, selectNextTask_store, hcd]

/-- Once a non-recoverable task is TERMINATED, a dispatcher iteration
neither changes its execution count nor revives it: selection only returns
READY tasks, so the dispatch acts on a different id, and recovery requires
the recoverable flag. -/
theorem schedulerStep_terminated_stable (s : SchedState) (o : LoopOracle) (id : TaskId)
    (hterm : (s.store id).state = .TERMINATED) (hrec : (s.store id).recoverable = false) :
    ((schedulerStep s o).store id).statistics.execution_count
        = (s.store id).statistics.execution_count ∧
    ((schedulerStep s o).store id).state = .TERMINATED := by
  have hcdCore := checkDeadlines_core s o.now id
  have hcdState : ((s.checkDeadlines o.now).store id).state = .TERMINATED := by
    rw [taskCore_state_eq hcdCore]
    exact hterm
  simp only [schedulerStep]
  cases hsel : (s.checkDeadlines o.now).selectNextTask.1 with
  | none =>
    simp only [hsel]
    constructor
    · rw [taskCore_count_eq (afterRun_core _ o id), withCurrent_store, selectNextTask_store,
        taskCore_count_eq hcdCore]
    · rw [taskCore_state_eq (afterRun_core _ o id), withCurrent_store, selectNextTask_store]
      exact hcdState
  | some j =>
    have hj : ((s.checkDeadlines o.now).store j).state = .READY :=
      selectNextTask_ready _ _ hsel
    have hij : id ≠ j := by
      intro hh
      rw [hh] at hcdState
      rw [hcdState] at hj
      exact TaskState.noConfusion hj
    simp only [hsel]
    constructor
    · rw [taskCore_count_eq (afterRun_core _ o id), runCurrent_store_other _ _ _ _ hij,
        withCurrent_store, selectNextTask_store, taskCore_count_eq hcdCore]
    · rw [taskCore_state_eq (afterRun_core _ o id), runCurrent_store_other _ _ _ _ hij,
        withCurrent_store, selectNextTask_store]
      exact hcdState

/-- A monitor tick preserves execution count, state and recoverability of
every task. -/
theorem monitorTick_core (s : SchedState) (e : Nat) (id : TaskId) :
    taskCore ((s.monitorTick e).store id) = taskCore (s.store id) :=
  monitor_foldl_congr taskCore taskCore_updateDeadlineCounter s.current_task s.preemption_mode e
    s.all_tasks s.store s.force_reschedule id

theorem applyOp_count_mono (t : Task) (op : TaskOp) :
    t.statistics.execution_count ≤ (t.applyOp op).statistics.execution_count := by
  cases op with
  | execute now thr =>
    simp only [Task.applyOp, execute_count]
    exact Nat.le_succ _
  | suspend =>
    simp only [Task.applyOp, Task.suspend]
    split_ifs <;> exact le_refl _
  | resume =>
    simp only [Task.applyOp, Task.resume]
    split_ifs <;> exact le_refl _
  | terminate => exact le_refl _
  | recordDeadlineMiss =>
    exact le_of_eq (taskCore_count_eq (taskCore_recordDeadlineMiss t)).symm
  | updatePriority =>
    exact le_of_eq (taskCore_count_eq (taskCore_updatePriority t)).symm
  | updateStatistics e =>
    exact le_of_eq (taskCore_count_eq (taskCore_updateStatistics t e)).symm
  | updateDeadlineCounter e =>
    exact le_of_eq (taskCore_count_eq (taskCore_updateDeadlineCounter t e)).symm

theorem applyOps_count_mono (ops : List TaskOp) : ∀ t : Task,
    t.statistics.execution_count ≤ (t.applyOps ops).statistics.execution_count := by
  induction ops with
  | nil => intro t; exact le_refl _
  | cons op ops ih =>
    intro t
    have h1 := applyOp_count_mono t op
    have h2 := ih (t.applyOp op)
    simp only [Task.applyOps, List.foldl_cons] at h2 ⊢
    exact le_trans h1 h2

/-- Every public task operation other than execute leaves a TERMINATED
task's execution count unchanged and its state TERMINATED. -/
theorem applyOp_terminated_stable (t : Task) (op : TaskOp) (hop : op.isExecute = false)
    (ht : t.state = .TERMINATED) :
    (t.applyOp op).statistics.execution_count = t.statistics.execution_count ∧
    (t.applyOp op).state = .TERMINATED := by
  cases op with
  | execute now thr => exact absurd hop (by simp [TaskOp.isExecute])
  | suspend =>
    have hs : t.suspend = t := by
      unfold Task.suspend
      rw [if_pos ht]
    simp only [Task.applyOp]
    rw [hs]
    exact ⟨rfl, ht⟩
  | resume =>
    have hns : ¬ t.state = .SUSPENDED := by
      rw [ht]
      intro hh
      exact TaskState.noConfusion hh
    have hs : t.resume = t := by
      unfold Task.resume
      rw [if_neg hns]
    simp only [Task.applyOp]
    rw [hs]
    exact ⟨rfl, ht⟩
  | terminate => exact ⟨rfl, rfl⟩
  | recordDeadlineMiss =>
    exact ⟨taskCore_count_eq (taskCore_recordDeadlineMiss t),
      (taskCore_state_eq (taskCore_recordDeadlineMiss t)).trans ht⟩
  | updatePriority =>
    exact ⟨taskCore_count_eq (taskCore_updatePriority t),
      (taskCore_state_eq (taskCore_updatePriority t)).trans ht⟩
  | updateStatistics e =>
    exact ⟨taskCore_count_eq (taskCore_updateStatistics t e),
      (taskCore_state_eq (taskCore_updateStatistics t e)).trans ht⟩
  | updateDeadlineCounter e =>
    exact ⟨taskCore_count_eq (taskCore_updateDeadlineCounter t e),
      (taskCore_state_eq (taskCore_updateDeadlineCounter t e)).trans ht⟩

/-- C9 (amended): execution_count is monotonically non-decreasing across
every sequence of public task operations other than reset_statistics —
which sets it to 0 and is called nowhere in the system — and across every
dispatcher iteration and deadline-monitor tick; and once a task is
TERMINATED, every public task operation other than execute and
reset_statistics leaves its execution count unchanged and its state
TERMINATED, dispatcher iterations do the same for non-recoverable
TERMINATED tasks (selection only ever returns READY tasks), and monitor
ticks preserve every task's count and state, so the stability composes
across any interleaving of these activities. -/
theorem execution_count_monotone_amended :
    (∀ (t : Task) (ops : List TaskOp),
      t.statistics.execution_count ≤ (t.applyOps ops).statistics.execution_count) ∧
    (∀ t : Task, t.resetStatistics.statistics.execution_count = 0) ∧
    (∀ (t : Task) (op : TaskOp), op.isExecute = false → t.state = .TERMINATED →
      (t.applyOp op).statistics.execution_count = t.statistics.execution_count ∧
      (t.applyOp op).state = .TERMINATED) ∧
    (∀ (s : SchedState) (o : LoopOracle) (id : TaskId),
      (s.store id).statistics.execution_count
        ≤ ((schedulerStep s o).store id).statistics.execution_count) ∧
    (∀ (s : SchedState) (e : Nat) (id : TaskId),
      ((s.monitorTick e).store id).statistics.execution_count
        = (s.store id).statistics.execution_count ∧
      ((s.monitorTick e).store id).state = (s.store id).state) ∧
    (∀ (s : SchedState) (o : LoopOracle) (id : TaskId),
      (s.store id).state = .TERMINATED → (s.store id).recoverable = false →
      ((schedulerStep s o).store id).statistics.execution_count
          = (s.store id).statistics.execution_count ∧
      ((schedulerStep s o).store id).state = .TERMINATED) :=
  ⟨fun t ops => applyOps_count_mono ops t,
   fun _ => rfl,
   applyOp_terminated_stable,
   schedulerStep_count_mono,
   fun s e id => ⟨taskCore_count_eq (monitorTick_core s e id),
     taskCore_state_eq (monitorTick_core s e id)⟩,
   schedulerStep_terminated_stable⟩

theorem execution_count_monotone_amended_witness :
    TaskOp.isExecute .suspend = false ∧
    deadTask.state = .TERMINATED ∧
    (deadTask.applyOp .suspend).statistics.execution_count
        = deadTask.statistics.execution_count ∧
    (deadTask.applyOp .suspend).state = .TERMINATED ∧
    (deadSched.store 0).state = .TERMINATED ∧
    (deadSched.store 0).recoverable = false ∧
    ((schedulerStep deadSched demoOracle).store 0).statistics.execution_count
        = (deadSched.store 0).statistics.execution_count ∧
    ((schedulerStep deadSched demoOracle).store 0).state = .TERMINATED := by
  have h3 := execution_count_monotone_amended.2.2.1 deadTask .suspend (by decide) (by decide)
  have h6 := execution_count_monotone_amended.2.2.2.2.2 deadSched demoOracle 0
    (by decide) (by decide)
  exact ⟨by decide, by decide, h3.1, h3.2, by decide, by decide, h6.1, h6.2⟩

end EduRTOS
